import Mathlib

/-!
Verification of the Naradh email/feedback service against its specification.

The development is a shallow embedding of the TypeScript source:

* EmailService.sendBatchEmails / chunkArray (src/server/constants.ts):
  the outcome of a single send is abstracted as a function
  sending each payload to an optional failure cause; the batch loop,
  chunking, and continue-on-error control flow mirror the source.
  The asynchronous completion order inside one chunk is determinised
  to input order; every property proved below (counts, error-list
  length and content, dispatch trace) is invariant under that choice.
* EmailServiceFactory (src/src/factory/EmailServiceFactory.ts):
  the provider and config maps become functions from strings,
  updated at the lowercased vendor key exactly as the source does.
* FeedbackService (src/src/services/TemplateService.ts, second file):
  validation, estimated-response-time buckets and the submit pipeline
  follow the source; the database and the two notification sends are
  external collaborators, abstracted as an environment of outcomes.
* TemplateService.render (src/src/services/TemplateService.ts):
  the filesystem, path resolution and the Handlebars compiler are
  parameters; a compiled template is a list of parts (literal text,
  variable reference, uppercase-helper reference) and rendering
  concatenates the parts, which is all the claims need.
-/

/-- Result record of EmailService.sendBatchEmails: counts of successful and
failed sends plus the collected failure causes, mirroring the source's
results object with fields successful, failed, errors. -/
structure BatchOutcome (ε : Type) where
  successful : Nat
  failed : Nat
  errors : List ε
deriving Repr, DecidableEq

/-- Embedding of EmailService.chunkArray: slices of length size taken from the
front repeatedly (for (i = 0; i < n; i += size) push(slice(i, i + size))).
The source loops forever when size = 0; that never-returning case is modelled
as the empty chunk list and every theorem below assumes 1 <= size. -/
def chunkArray {α : Type} : List α → Nat → List (List α)
  | [], _ => []
  | _ :: _, 0 => []
  | x :: xs, k + 1 => (x :: xs).take (k + 1) :: chunkArray ((x :: xs).drop (k + 1)) (k + 1)
termination_by l _ => l.length
decreasing_by simp [List.length_drop]; omega

/-- Processing of one concurrency wave: every payload of the chunk is
dispatched (the source maps an async closure over the whole chunk before
awaiting), successes and failures are counted and failure causes appended
in order. -/
def runChunk {α ε : Type} (send : α → Option ε) : BatchOutcome ε → List α → BatchOutcome ε
  | acc, [] => acc
  | acc, p :: rest =>
    match send p with
    | none => runChunk send ⟨acc.successful + 1, acc.failed, acc.errors⟩ rest
    | some e => runChunk send ⟨acc.successful, acc.failed + 1, acc.errors ++ [e]⟩ rest

/-- Chunk-by-chunk loop of the parallel branch of sendBatchEmails.  A chunk is
fully processed; then, when continueOnError is false and the chunk contained a
failure, the first failure is rethrown out of the awaited Promise.all and the
remaining chunks are never reached. -/
def parLoop {α ε : Type} (send : α → Option ε) (continueOnError : Bool) :
    BatchOutcome ε → List (List α) → Except ε (BatchOutcome ε)
  | acc, [] => Except.ok acc
  | acc, c :: cs =>
    let acc1 := runChunk send acc c
    match c.findSome? send with
    | some e =>
      if continueOnError then parLoop send continueOnError acc1 cs else Except.error e
    | none => parLoop send continueOnError acc1 cs

/-- Sequential branch of sendBatchEmails: payloads one at a time, the first
failure rethrown when continueOnError is false. -/
def seqLoop {α ε : Type} (send : α → Option ε) (continueOnError : Bool) :
    BatchOutcome ε → List α → Except ε (BatchOutcome ε)
  | acc, [] => Except.ok acc
  | acc, p :: rest =>
    match send p with
    | none => seqLoop send continueOnError ⟨acc.successful + 1, acc.failed, acc.errors⟩ rest
    | some e =>
      if continueOnError then
        seqLoop send continueOnError ⟨acc.successful, acc.failed + 1, acc.errors ++ [e]⟩ rest
      else Except.error e

/-- Embedding of EmailService.sendBatchEmails.  The outcome of one
EmailService.sendEmail call is abstracted by the function send (none means
success, some e the thrown error).  A normal return is Except.ok, a thrown
error Except.error.  Source defaults: parallel true, continueOnError true,
maxConcurrency 5. -/
def sendBatchEmails {α ε : Type} (send : α → Option ε) (parallel continueOnError : Bool)
    (maxConcurrency : Nat) (payloads : List α) : Except ε (BatchOutcome ε) :=
  if parallel then
    parLoop send continueOnError ⟨0, 0, []⟩ (chunkArray payloads maxConcurrency)
  else
    seqLoop send continueOnError ⟨0, 0, []⟩ payloads

/-- Dispatch trace of the parallel branch: the payloads on which a send is
actually started, in order.  All payloads of a chunk are dispatched before the
chunk is awaited; when continueOnError is false, a chunk containing a failure
is the last chunk dispatched. -/
def dispatchTracePar {α ε : Type} (send : α → Option ε) (continueOnError : Bool) :
    List (List α) → List α
  | [] => []
  | c :: cs =>
    if continueOnError then c ++ dispatchTracePar send continueOnError cs
    else
      match c.findSome? send with
      | some _ => c
      | none => c ++ dispatchTracePar send continueOnError cs

theorem chunkArray_join {α : Type} : ∀ (l : List α) (k : Nat), (chunkArray l (k + 1)).flatten = l
  | [], _ => by simp [chunkArray]
  | x :: xs, k => by
    rw [chunkArray]
    rw [List.flatten_cons]
    rw [chunkArray_join ((x :: xs).drop (k + 1)) k]
    exact List.take_append_drop _ _
termination_by l _ => l.length
decreasing_by simp [List.length_drop]; omega

theorem chunkArray_eq_nil_iff {α : Type} (l : List α) (k : Nat) :
    chunkArray l (k + 1) = [] ↔ l = [] := by
  cases l with
  | nil => simp [chunkArray]
  | cons x xs => simp [chunkArray]

theorem chunkArray_mem_spec {α : Type} :
    ∀ (l : List α) (k : Nat), ∀ c ∈ chunkArray l (k + 1), c.length ≤ k + 1 ∧ c ≠ []
  | [], _ => by simp [chunkArray]
  | x :: xs, k => by
    rw [chunkArray]
    intro c hc
    rcases List.mem_cons.mp hc with h | h
    · subst h
      refine ⟨?_, by simp⟩
      rw [List.length_take]
      omega
    · exact chunkArray_mem_spec ((x :: xs).drop (k + 1)) k c h
termination_by l _ => l.length
decreasing_by simp [List.length_drop]; omega

theorem chunkArray_dropLast_length {α : Type} :
    ∀ (l : List α) (k : Nat), ∀ c ∈ (chunkArray l (k + 1)).dropLast, c.length = k + 1
  | [], _ => by simp [chunkArray]
  | x :: xs, k => by
    rw [chunkArray]
    cases hrest : chunkArray ((x :: xs).drop (k + 1)) (k + 1) with
    | nil => simp
    | cons c2 cs2 =>
      intro c hc
      rw [List.dropLast_cons_of_ne_nil (by simp)] at hc
      rcases List.mem_cons.mp hc with h | h
      · subst h
        have hdrop : (x :: xs).drop (k + 1) ≠ [] := by
          intro hnil
          rw [(chunkArray_eq_nil_iff _ k).mpr hnil] at hrest
          exact List.cons_ne_nil _ _ hrest.symm
        have hlen : k + 1 < (x :: xs).length := by
          by_contra hle
          exact hdrop (List.drop_eq_nil_iff.mpr (by omega))
        rw [List.length_take]
        omega
      · have := chunkArray_dropLast_length ((x :: xs).drop (k + 1)) k c
        rw [hrest] at this
        exact this h
termination_by l _ => l.length
decreasing_by simp [List.length_drop]; omega

theorem runChunk_spec {α ε : Type} (send : α → Option ε) :
    ∀ (c : List α) (acc : BatchOutcome ε),
      runChunk send acc c =
        ⟨acc.successful + c.countP (fun p => (send p).isNone),
         acc.failed + (c.filterMap send).length,
         acc.errors ++ c.filterMap send⟩ := by
  intro c
  induction c with
  | nil => intro acc; simp [runChunk]
  | cons p rest ih =>
    intro acc
    cases hp : send p with
    | none =>
      simp only [runChunk, hp]
      rw [ih]
      simp only [BatchOutcome.mk.injEq, List.countP_cons, List.filterMap_cons, hp]
      refine ⟨by simp; omega, by simp, by simp⟩
    | some e =>
      simp only [runChunk, hp]
      rw [ih]
      simp only [BatchOutcome.mk.injEq, List.countP_cons, List.filterMap_cons, hp]
      refine ⟨by simp, by simp; omega, by simp [List.append_assoc]⟩

theorem countP_isNone_add_filterMap_length {α ε : Type} (send : α → Option ε) :
    ∀ l : List α, l.countP (fun p => (send p).isNone) + (l.filterMap send).length = l.length := by
  intro l
  induction l with
  | nil => simp
  | cons p rest ih =>
    cases hp : send p <;>
      simp [List.countP_cons, List.filterMap_cons, hp] <;> omega

theorem parLoop_continue_spec {α ε : Type} (send : α → Option ε) :
    ∀ (cs : List (List α)) (acc : BatchOutcome ε),
      parLoop send true acc cs =
        Except.ok ⟨acc.successful + cs.flatten.countP (fun p => (send p).isNone),
                   acc.failed + (cs.flatten.filterMap send).length,
                   acc.errors ++ cs.flatten.filterMap send⟩ := by
  intro cs
  induction cs with
  | nil => intro acc; simp [parLoop]
  | cons c rest ih =>
    intro acc
    cases hc : c.findSome? send <;>
      simp only [parLoop, hc, if_true, runChunk_spec, ih, List.flatten_cons,
        List.countP_append, List.filterMap_append, List.length_append,
        Except.ok.injEq, BatchOutcome.mk.injEq] <;>
      exact ⟨by omega, by omega, by simp [List.append_assoc]⟩

theorem seqLoop_continue_spec {α ε : Type} (send : α → Option ε) :
    ∀ (l : List α) (acc : BatchOutcome ε),
      seqLoop send true acc l =
        Except.ok ⟨acc.successful + l.countP (fun p => (send p).isNone),
                   acc.failed + (l.filterMap send).length,
                   acc.errors ++ l.filterMap send⟩ := by
  intro l
  induction l with
  | nil => intro acc; simp [seqLoop]
  | cons p rest ih =>
    intro acc
    cases hp : send p <;>
      simp only [seqLoop, hp, if_true, ih, List.countP_cons, List.filterMap_cons,
        Except.ok.injEq, BatchOutcome.mk.injEq] <;>
      exact ⟨by simp [hp] <;> omega, by simp [hp] <;> omega, by simp [hp, List.append_assoc]⟩

theorem parLoop_error_of_failure {α ε : Type} (send : α → Option ε) :
    ∀ (cs : List (List α)) (acc : BatchOutcome ε),
      (cs.flatten.findSome? send).isSome →
      ∃ e, parLoop send false acc cs = Except.error e := by
  intro cs
  induction cs with
  | nil => intro acc h; simp at h
  | cons c rest ih =>
    intro acc h
    cases hc : c.findSome? send with
    | some e => exact ⟨e, by simp [parLoop, hc]⟩
    | none =>
      rw [List.flatten_cons, List.findSome?_append, hc] at h
      simp only [Option.or] at h
      obtain ⟨e2, he⟩ := ih (runChunk send acc c) h
      exact ⟨e2, by simp only [parLoop, hc]; exact he⟩

theorem dispatchTracePar_take_spec {α ε : Type} (send : α → Option ε) :
    ∀ cs : List (List α),
      dispatchTracePar send false cs =
        (cs.take (cs.findIdx (fun c => (c.findSome? send).isSome) + 1)).flatten := by
  intro cs
  induction cs with
  | nil => simp [dispatchTracePar]
  | cons c rest ih =>
    cases hc : c.findSome? send with
    | some e =>
      simp [dispatchTracePar, hc, List.findIdx_cons]
    | none =>
      simp [dispatchTracePar, hc, List.findIdx_cons, ih]

/-- C1: with continueOnError true (the default) the batch call returns
normally, the success and failure counts sum to the input size, the error
list has one entry per failed payload (its entries are exactly the failure
causes of the failing payloads, in order), in both the parallel and the
sequential mode.  The hypothesis 1 <= maxConcurrency excludes the
maxConcurrency = 0 corner on which the source's parallel loop never
returns. -/
theorem sendBatchEmails_continueOnError_invariant {α ε : Type}
    (send : α → Option ε) (payloads : List α) (parallel : Bool) (k : Nat) (hk : 1 ≤ k) :
    ∃ r : BatchOutcome ε,
      sendBatchEmails send parallel true k payloads = Except.ok r
      ∧ r.successful + r.failed = payloads.length
      ∧ r.errors.length = r.failed
      ∧ r.errors = payloads.filterMap send := by
  obtain ⟨m, rfl⟩ : ∃ m, k = m + 1 := ⟨k - 1, by omega⟩
  refine ⟨⟨payloads.countP (fun p => (send p).isNone), (payloads.filterMap send).length,
      payloads.filterMap send⟩, ?_, countP_isNone_add_filterMap_length send payloads, rfl, rfl⟩
  cases parallel with
  | true =>
    simp only [sendBatchEmails, if_true]
    rw [parLoop_continue_spec send]
    rw [chunkArray_join]
    simp
  | false =>
    simp only [sendBatchEmails, Bool.false_eq_true, if_false]
    rw [seqLoop_continue_spec send]
    simp

/-- Closed instance of the C1 theorem: seven payloads of which three fail,
maxConcurrency 2, parallel mode. -/
theorem sendBatchEmails_continueOnError_invariant_witness :
    1 ≤ 2 ∧ ∃ r : BatchOutcome Nat,
      sendBatchEmails (fun n => if n % 2 = 0 then none else some n) true true 2
          [0, 1, 2, 3, 4, 5, 6] = Except.ok r
      ∧ r.successful + r.failed = [0, 1, 2, 3, 4, 5, 6].length
      ∧ r.errors.length = r.failed
      ∧ r.errors = [0, 1, 2, 3, 4, 5, 6].filterMap (fun n => if n % 2 = 0 then none else some n) :=
  ⟨by decide,
    sendBatchEmails_continueOnError_invariant
      (fun n => if n % 2 = 0 then none else some n) [0, 1, 2, 3, 4, 5, 6] true 2 (by decide)⟩

/-- C2: with continueOnError false in the parallel mode, a batch containing a
failing payload makes the call throw (an Except.error, never a BatchOutcome),
and the dispatch trace is exactly the concatenation of the chunks up to and
including the chunk holding the first failure: that chunk is dispatched in
full (already-started sends run to completion) and no payload of any later
chunk is ever dispatched. -/
theorem sendBatchEmails_abort_on_failure {α ε : Type}
    (send : α → Option ε) (payloads : List α) (k : Nat) (e : ε)
    (hk : 1 ≤ k) (hfail : payloads.findSome? send = some e) :
    (∃ e2, sendBatchEmails send true false k payloads = Except.error e2)
    ∧ dispatchTracePar send false (chunkArray payloads k)
        = ((chunkArray payloads k).take
            ((chunkArray payloads k).findIdx (fun c => (c.findSome? send).isSome) + 1)).flatten := by
  obtain ⟨m, rfl⟩ : ∃ m, k = m + 1 := ⟨k - 1, by omega⟩
  constructor
  · simp only [sendBatchEmails, if_true]
    refine parLoop_error_of_failure send _ ⟨0, 0, []⟩ ?_
    rw [chunkArray_join, hfail]
    rfl
  · exact dispatchTracePar_take_spec send (chunkArray payloads (m + 1))

/-- Closed instance of the C2 theorem: payloads 0..4 with the odd ones
failing, maxConcurrency 2; the first failure is payload 1 in the first
chunk. -/
theorem sendBatchEmails_abort_on_failure_witness :
    (1 ≤ 2 ∧ [0, 1, 2, 3, 4].findSome? (fun n => if n % 2 = 0 then none else some n) = some 1)
    ∧ ((∃ e2, sendBatchEmails (fun n => if n % 2 = 0 then none else some n) true false 2
          [0, 1, 2, 3, 4] = Except.error e2)
      ∧ dispatchTracePar (fun n => if n % 2 = 0 then none else some n) false
            (chunkArray [0, 1, 2, 3, 4] 2)
          = ((chunkArray [0, 1, 2, 3, 4] 2).take
              ((chunkArray [0, 1, 2, 3, 4] 2).findIdx
                (fun c => (c.findSome? (fun n => if n % 2 = 0 then none else some n)).isSome) + 1)).flatten) :=
  ⟨⟨by decide, by decide⟩,
    sendBatchEmails_abort_on_failure (fun n => if n % 2 = 0 then none else some n)
      [0, 1, 2, 3, 4] 2 1 (by decide) (by decide)⟩

/-- C3: for every input list and maxConcurrency at least 1, the parallel mode
partitions the input into consecutive chunks whose concatenation is the input
in order, every chunk except possibly the last has length exactly
maxConcurrency, no chunk is longer than maxConcurrency or empty, and the
dispatch trace of the chunk-by-chunk loop lists the payloads in input order,
each chunk dispatched as one fully awaited wave before the next chunk
starts. -/
theorem chunkArray_partition_spec {α ε : Type}
    (send : α → Option ε) (payloads : List α) (k : Nat) (hk : 1 ≤ k) :
    (chunkArray payloads k).flatten = payloads
    ∧ (∀ c ∈ (chunkArray payloads k).dropLast, c.length = k)
    ∧ (∀ c ∈ chunkArray payloads k, c.length ≤ k ∧ c ≠ [])
    ∧ dispatchTracePar send true (chunkArray payloads k) = payloads := by
  obtain ⟨m, rfl⟩ : ∃ m, k = m + 1 := ⟨k - 1, by omega⟩
  have htrace : ∀ cs : List (List α), dispatchTracePar send true cs = cs.flatten := by
    intro cs
    induction cs with
    | nil => simp [dispatchTracePar]
    | cons c rest ih => simp [dispatchTracePar, ih]
  exact ⟨chunkArray_join payloads m,
    chunkArray_dropLast_length payloads m,
    chunkArray_mem_spec payloads m,
    by rw [htrace, chunkArray_join]⟩

/-- Closed instance of the C3 theorem at a seven-element list with
maxConcurrency 5 (the source default): chunks of sizes 5 and 2. -/
theorem chunkArray_partition_spec_witness :
    1 ≤ 5 ∧
    ((chunkArray [0, 1, 2, 3, 4, 5, 6] 5).flatten = [0, 1, 2, 3, 4, 5, 6]
    ∧ (∀ c ∈ (chunkArray [0, 1, 2, 3, 4, 5, 6] 5).dropLast, c.length = 5)
    ∧ (∀ c ∈ chunkArray [0, 1, 2, 3, 4, 5, 6] 5, c.length ≤ 5 ∧ c ≠ [])
    ∧ dispatchTracePar (fun _ : Nat => (none : Option Nat)) true
        (chunkArray [0, 1, 2, 3, 4, 5, 6] 5) = [0, 1, 2, 3, 4, 5, 6]) :=
  ⟨by decide,
    chunkArray_partition_spec (fun _ : Nat => (none : Option Nat)) [0, 1, 2, 3, 4, 5, 6] 5
      (by decide)⟩


/-- Model of the JavaScript toLowerCase call used for vendor keys: lowercase
every character. -/
def strToLower (s : String) : String := String.mk (s.data.map Char.toLower)

/-- Model of the JavaScript toUpperCase call used by the uppercase template
helper: uppercase every character. -/
def strToUpper (s : String) : String := String.mk (s.data.map Char.toUpper)

/-- Abstraction of a constructed EmailProvider instance, as observed by
EmailService.testConfiguration: an optional verify capability (none when the
provider has no verifyConnection method, as ResendProvider; some outcome when
it has one, as NodemailerProvider), where the verification itself may throw. -/
structure ProviderInstance (ε : Type) where
  verify : Option (Except ε Bool)

/-- Errors thrown by EmailServiceFactory.createProvider: unsupported vendor,
missing configuration, or an error thrown by the provider constructor
itself (for instance a ResendProvider constructor finding no apiKey). -/
inductive FactoryError (ε : Type) where
  | unsupported
  | missingConfiguration
  | ctorThrew (e : ε)

/-- State of EmailServiceFactory: the two maps keyed by lowercased vendor
identifiers, holding provider constructors and provider configurations.  A
provider constructor takes a config and either throws or yields a provider
instance. -/
structure EmailServiceFactory (ε γ : Type) where
  providers : String → Option (γ → Except ε (ProviderInstance ε))
  configs : String → Option γ

/-- Embedding of EmailServiceFactory.registerProvider: stores the constructor
under the lowercased vendor key. -/
def EmailServiceFactory.registerProvider {ε γ : Type} (f : EmailServiceFactory ε γ)
    (vendor : String) (providerClass : γ → Except ε (ProviderInstance ε)) :
    EmailServiceFactory ε γ :=
  { f with providers := fun k =>
      if k = strToLower vendor then some providerClass else f.providers k }

/-- Embedding of EmailServiceFactory.setProviderConfig: stores the config
under the lowercased vendor key. -/
def EmailServiceFactory.setProviderConfig {ε γ : Type} (f : EmailServiceFactory ε γ)
    (vendor : String) (config : γ) : EmailServiceFactory ε γ :=
  { f with configs := fun k =>
      if k = strToLower vendor then some config else f.configs k }

/-- Embedding of EmailServiceFactory.isProviderRegistered: membership of the
lowercased vendor key in the provider map. -/
def EmailServiceFactory.isProviderRegistered {ε γ : Type} (f : EmailServiceFactory ε γ)
    (vendor : String) : Bool :=
  (f.providers (strToLower vendor)).isSome

/-- Embedding of EmailServiceFactory.createProvider: throws unsupported when
the lowercased vendor key is unregistered, missingConfiguration when no
config was set, otherwise runs the stored constructor on the stored config,
wrapping a constructor throw. -/
def EmailServiceFactory.createProvider {ε γ : Type} (f : EmailServiceFactory ε γ)
    (vendor : String) : Except (FactoryError ε) (ProviderInstance ε) :=
  match f.providers (strToLower vendor) with
  | none => Except.error FactoryError.unsupported
  | some providerClass =>
    match f.configs (strToLower vendor) with
    | none => Except.error FactoryError.missingConfiguration
    | some config =>
      match providerClass config with
      | Except.ok p => Except.ok p
      | Except.error e => Except.error (FactoryError.ctorThrew e)

/-- Embedding of EmailService.testConfiguration: construct the provider via
the factory; any throw yields false; a provider without a verify capability
yields true; with one, the verify outcome is returned and a verify throw
yields false. -/
def testConfiguration {ε γ : Type} (f : EmailServiceFactory ε γ) (vendor : String) : Bool :=
  match EmailServiceFactory.createProvider f vendor with
  | Except.error _ => false
  | Except.ok p =>
    match p.verify with
    | none => true
    | some (Except.ok b) => b
    | some (Except.error _) => false

/-- C8: vendor identifiers are case-insensitive across the registry.
Registering under v, configuring under v2 and creating under v3 behaves, for
any case variants v, v2, v3 of one identifier (equal lowercasings), exactly
as running the registered constructor on the stored config: all variants hit
the same registry entry.  Moreover isProviderRegistered agrees on all case
variants of any vendor, and the variant used for registration is registered
under every other variant. -/
theorem factory_case_insensitive {ε γ : Type} (f : EmailServiceFactory ε γ)
    (v v2 v3 : String) (ctor : γ → Except ε (ProviderInstance ε)) (config : γ)
    (h12 : strToLower v = strToLower v2) (h13 : strToLower v = strToLower v3) :
    EmailServiceFactory.createProvider
        (EmailServiceFactory.setProviderConfig
          (EmailServiceFactory.registerProvider f v ctor) v2 config) v3
      = (match ctor config with
         | Except.ok p => Except.ok p
         | Except.error e => Except.error (FactoryError.ctorThrew e))
    ∧ EmailServiceFactory.isProviderRegistered
        (EmailServiceFactory.registerProvider f v ctor) v3 = true
    ∧ ∀ u w : String, strToLower u = strToLower w →
        EmailServiceFactory.isProviderRegistered f u
          = EmailServiceFactory.isProviderRegistered f w := by
  refine ⟨?_, ?_, ?_⟩
  · simp only [EmailServiceFactory.createProvider, EmailServiceFactory.setProviderConfig,
      EmailServiceFactory.registerProvider]
    rw [← h13, ← h12]
    simp
  · simp only [EmailServiceFactory.isProviderRegistered, EmailServiceFactory.registerProvider]
    rw [← h13]
    simp
  · intro u w huw
    simp only [EmailServiceFactory.isProviderRegistered, huw]

/-- Sample factory used by closed witness instances: one registered and
configured vendor under the key sg, whose constructor succeeds with a
provider that has no verify capability. -/
def sampleFactory : EmailServiceFactory Unit Unit :=
  ⟨fun k => if k = "sg" then some (fun _ => Except.ok ⟨none⟩) else none,
   fun k => if k = "sg" then some () else none⟩

/-- Closed instance of the C8 theorem on an empty factory with the case
variants SendGrid, SENDGRID, sendgrid. -/
theorem factory_case_insensitive_witness :
    (strToLower "SendGrid" = strToLower "SENDGRID"
      ∧ strToLower "SendGrid" = strToLower "sendgrid")
    ∧ (EmailServiceFactory.createProvider
        (EmailServiceFactory.setProviderConfig
          (EmailServiceFactory.registerProvider
            (⟨fun _ => none, fun _ => none⟩ : EmailServiceFactory Unit Unit)
            "SendGrid" (fun _ => Except.ok ⟨none⟩)) "SENDGRID" ()) "sendgrid"
      = (match (fun _ => Except.ok ⟨none⟩ : Unit → Except Unit (ProviderInstance Unit)) () with
         | Except.ok p => Except.ok p
         | Except.error e => Except.error (FactoryError.ctorThrew e))
    ∧ EmailServiceFactory.isProviderRegistered
        (EmailServiceFactory.registerProvider
          (⟨fun _ => none, fun _ => none⟩ : EmailServiceFactory Unit Unit)
          "SendGrid" (fun _ => Except.ok ⟨none⟩)) "sendgrid" = true
    ∧ ∀ u w : String, strToLower u = strToLower w →
        EmailServiceFactory.isProviderRegistered
            (⟨fun _ => none, fun _ => none⟩ : EmailServiceFactory Unit Unit) u
          = EmailServiceFactory.isProviderRegistered
            (⟨fun _ => none, fun _ => none⟩ : EmailServiceFactory Unit Unit) w) :=
  ⟨⟨by decide, by decide⟩,
    factory_case_insensitive (⟨fun _ => none, fun _ => none⟩ : EmailServiceFactory Unit Unit)
      "SendGrid" "SENDGRID" "sendgrid" (fun _ => Except.ok ⟨none⟩) () (by decide) (by decide)⟩

/-- C10: testConfiguration is total over vendor strings and returns a plain
boolean (by its type it can never propagate an error).  Any failure during
provider construction, including an unregistered vendor, a missing
configuration or a throwing constructor, yields false; construction success
without a verify capability yields true; with a verify capability, the
verify outcome is returned and a throwing verification yields false. -/
theorem testConfiguration_total {ε γ : Type} (f : EmailServiceFactory ε γ) (vendor : String) :
    (∀ e, EmailServiceFactory.createProvider f vendor = Except.error e →
        testConfiguration f vendor = false)
    ∧ (∀ p, EmailServiceFactory.createProvider f vendor = Except.ok p → p.verify = none →
        testConfiguration f vendor = true)
    ∧ (∀ p b, EmailServiceFactory.createProvider f vendor = Except.ok p →
        p.verify = some (Except.ok b) → testConfiguration f vendor = b)
    ∧ (∀ p e, EmailServiceFactory.createProvider f vendor = Except.ok p →
        p.verify = some (Except.error e) → testConfiguration f vendor = false)
    ∧ (EmailServiceFactory.isProviderRegistered f vendor = false →
        testConfiguration f vendor = false) := by
  refine ⟨?_, ?_, ?_, ?_, ?_⟩
  · intro e he
    simp [testConfiguration, he]
  · intro p hp hv
    simp [testConfiguration, hp, hv]
  · intro p b hp hv
    simp [testConfiguration, hp, hv]
  · intro p e hp hv
    simp [testConfiguration, hp, hv]
  · intro hreg
    simp only [EmailServiceFactory.isProviderRegistered] at hreg
    cases hopt : f.providers (strToLower vendor) with
    | some pc => rw [hopt] at hreg; simp at hreg
    | none => simp [testConfiguration, EmailServiceFactory.createProvider, hopt]

/-- Closed instance of the C10 theorem: on the sample factory, the registered
vendor sg constructs a provider without a verify capability and tests true,
while the unregistered vendor nope tests false. -/
theorem testConfiguration_total_witness :
    (EmailServiceFactory.createProvider sampleFactory "sg"
        = Except.ok (⟨none⟩ : ProviderInstance Unit)
      ∧ testConfiguration sampleFactory "sg" = true)
    ∧ (EmailServiceFactory.isProviderRegistered sampleFactory "nope" = false
      ∧ testConfiguration sampleFactory "nope" = false) :=
  ⟨⟨rfl,
      (testConfiguration_total sampleFactory "sg").2.1 ⟨none⟩ rfl rfl⟩,
    ⟨by decide,
      (testConfiguration_total sampleFactory "nope").2.2.2.2 (by decide)⟩⟩

/-- Characters admitted by the bracket classes of the email regex: anything
that is neither whitespace nor an at sign. -/
def okChar (c : Char) : Bool := !c.isWhitespace && c != '@'

/-- Existence of a dot character followed by at least one further character
in the list. -/
def dotWithSuffix : List Char → Bool
  | [] => false
  | '.' :: _ :: _ => true
  | _ :: rest => dotWithSuffix rest

/-- Embedding of the isValidEmail regex test shared by EmailService and
FeedbackService: the anchored pattern demands a@b.c with a, b, c nonempty
runs of characters that are neither whitespace nor at signs.  Equivalently:
exactly one at sign, a nonempty all-admissible part before it, and after it
a nonempty all-admissible part containing a dot that is neither its first
nor its last character. -/
def isValidEmail (s : String) : Bool :=
  let cs := s.data
  cs.count '@' == 1 &&
  (let l := cs.takeWhile (fun c => c != '@')
   let d := (cs.dropWhile (fun c => c != '@')).drop 1
   !l.isEmpty && l.all okChar &&
   (!d.isEmpty && d.all okChar && dotWithSuffix (d.drop 1)))

/-- Submitter or recipient identity as validated by
FeedbackService.validatePayload (optional role and user id fields take no
part in validation and are omitted). -/
structure FeedbackPerson where
  name : String
  email : String

/-- Feedback body as validated and used by FeedbackService (optional
category takes no part in the modelled behavior). -/
structure FeedbackBody where
  content : String
  rating : Int
  type : String
  priority : Option String

/-- Submission context as validated by FeedbackService (only the two
required fields take part). -/
structure FeedbackContext where
  applicationName : String
  featureName : String

/-- Feedback submission payload, the validated subset of
FeedbackSubmissionPayload. -/
structure FeedbackSubmissionPayload where
  submitter : FeedbackPerson
  recipient : FeedbackPerson
  feedback : FeedbackBody
  context : FeedbackContext

/-- The five-value feedback type enumeration. -/
def feedbackTypes : List String :=
  ["positive", "negative", "suggestion", "bug", "feature_request"]

/-- Embedding of FeedbackService.validatePayload: the ordered list of
collected error strings; the payload passes validation exactly when the
list is empty (the source then does not throw).  Falsy string checks are
emptiness, the rating check is the source's !rating || rating < 1 ||
rating > 5 over an integer rating. -/
def FeedbackService.validatePayload (p : FeedbackSubmissionPayload) : List String :=
  (if p.submitter.name = "" then ["Submitter name is required"] else []) ++
  (if p.submitter.email = "" then ["Submitter email is required"] else []) ++
  (if !isValidEmail p.submitter.email then ["Submitter email is invalid"] else []) ++
  (if p.recipient.name = "" then ["Recipient name is required"] else []) ++
  (if p.recipient.email = "" then ["Recipient email is required"] else []) ++
  (if !isValidEmail p.recipient.email then ["Recipient email is invalid"] else []) ++
  (if p.feedback.content = "" then ["Feedback content is required"] else []) ++
  (if p.feedback.rating = 0 ∨ p.feedback.rating < 1 ∨ p.feedback.rating > 5 then
    ["Rating must be between 1 and 5"] else []) ++
  (if p.feedback.type = "" then ["Feedback type is required"] else []) ++
  (if p.feedback.type ∉ feedbackTypes then ["Invalid feedback type"] else []) ++
  (if p.context.applicationName = "" then ["Application name is required"] else []) ++
  (if p.context.featureName = "" then ["Feature name is required"] else [])

/-- Embedding of FeedbackService.getEstimatedResponseTime: the fixed labeled
buckets in source order of precedence. -/
def FeedbackService.getEstimatedResponseTime (feedbackType : String)
    (priority : Option String) : String :=
  if priority = some "critical" then "2-4 hours"
  else if priority = some "high" then "24-48 hours"
  else if feedbackType = "bug" then "2-3 business days"
  else if feedbackType = "negative" then "1-2 business days"
  else "3-5 business days"

/-- Whether a settled promise was fulfilled (Promise.allSettled status
fulfilled versus rejected). -/
def settledOk {ε : Type} : Except ε Unit → Bool
  | Except.ok _ => true
  | Except.error _ => false

/-- Embedding of FeedbackService.sendEmailNotifications: both sends run via
Promise.allSettled, so each outcome is observed independently and no
rejection propagates. -/
def FeedbackService.sendEmailNotifications {ε : Type}
    (submitterSend recipientSend : Except ε Unit) : Bool × Bool :=
  (settledOk submitterSend, settledOk recipientSend)

/-- Per-recipient delivery flags of the feedback response. -/
structure EmailsSentFlags where
  submitterNotified : Bool
  recipientNotified : Bool
deriving Repr, DecidableEq

/-- Embedding of FeedbackSubmissionResponse. -/
structure FeedbackSubmissionResponse where
  success : Bool
  message : String
  feedbackId : Option String
  trackingId : Option String
  estimatedResponseTime : Option String
  emailsSent : EmailsSentFlags
  error : Option String
deriving Repr, DecidableEq

/-- External collaborators of submitFeedback: whether the initial save and
the delivery-flag update save succeed, the stored document's id and
tracking id, and the outcomes of the two notification sends. -/
structure SubmitEnv where
  saveOk : Bool
  updateSaveOk : Bool
  feedbackId : String
  trackingId : String
  submitterSend : Except String Unit
  recipientSend : Except String Unit

/-- Observable side effects of one submitFeedback call: whether a record was
persisted, whether each notification send was started, and whether the
delivery-flag update was committed. -/
structure SubmitEffects where
  persisted : Bool
  submitterDispatched : Bool
  recipientDispatched : Bool
  updateSaved : Bool
deriving Repr, DecidableEq

/-- Embedding of FeedbackService.submitFeedback: validation first (a
validation throw is caught, yielding a failure response with no side
effect), then the save (a throw likewise yields a failure response), then
the two notification dispatches via Promise.allSettled, then the
delivery-flag update save, attempted only when at least one notification
succeeded; every catch yields the same failure response shape.  The result
pairs the returned response with the observable side effects. -/
def FeedbackService.submitFeedback (env : SubmitEnv) (p : FeedbackSubmissionPayload) :
    FeedbackSubmissionResponse × SubmitEffects :=
  if FeedbackService.validatePayload p ≠ [] then
    (⟨false, "Failed to submit feedback", none, none, none, ⟨false, false⟩,
      some ("Validation failed: " ++ String.intercalate ", " (FeedbackService.validatePayload p))⟩,
     ⟨false, false, false, false⟩)
  else if env.saveOk = false then
    (⟨false, "Failed to submit feedback", none, none, none, ⟨false, false⟩,
      some "Database save failed"⟩,
     ⟨false, false, false, false⟩)
  else
    let results := FeedbackService.sendEmailNotifications env.submitterSend env.recipientSend
    if (results.1 || results.2) && !env.updateSaveOk then
      (⟨false, "Failed to submit feedback", none, none, none, ⟨false, false⟩,
        some "Database update failed"⟩,
       ⟨true, true, true, false⟩)
    else
      (⟨true, "Feedback submitted successfully", some env.feedbackId, some env.trackingId,
        some (FeedbackService.getEstimatedResponseTime p.feedback.type p.feedback.priority),
        ⟨results.1, results.2⟩, none⟩,
       ⟨true, true, true, results.1 || results.2⟩)

/-- C4: for a valid submission with working persistence, submitFeedback
returns success true whatever the two notification outcomes are, and the
emailsSent flags report each notification's own outcome: the failure of one
notification affects neither the other flag nor the overall success. -/
theorem submitFeedback_notification_isolation (env : SubmitEnv)
    (p : FeedbackSubmissionPayload) (hvalid : FeedbackService.validatePayload p = [])
    (hsave : env.saveOk = true) (hupdate : env.updateSaveOk = true) :
    (FeedbackService.submitFeedback env p).1.success = true
    ∧ (FeedbackService.submitFeedback env p).1.emailsSent.submitterNotified
        = settledOk env.submitterSend
    ∧ (FeedbackService.submitFeedback env p).1.emailsSent.recipientNotified
        = settledOk env.recipientSend := by
  simp [FeedbackService.submitFeedback, hvalid, hsave, hupdate,
    FeedbackService.sendEmailNotifications]

/-- Valid sample payload used by closed witness instances. -/
def samplePayload : FeedbackSubmissionPayload :=
  ⟨⟨"Ana", "ana@example.com"⟩, ⟨"Bob", "bob@example.com"⟩,
   ⟨"Great feature", 5, "positive", none⟩, ⟨"App", "Search"⟩⟩

/-- Closed instance of the C4 theorem: the recipient notification fails
with a simulated transport error while the submitter notification succeeds;
the submission still succeeds and the flags read true and false. -/
theorem submitFeedback_notification_isolation_witness :
    (FeedbackService.validatePayload samplePayload = []
      ∧ (SubmitEnv.mk true true "id1" "FB-1" (Except.ok ()) (Except.error "transport")).saveOk = true)
    ∧ ((FeedbackService.submitFeedback
          (SubmitEnv.mk true true "id1" "FB-1" (Except.ok ()) (Except.error "transport"))
          samplePayload).1.success = true
      ∧ (FeedbackService.submitFeedback
          (SubmitEnv.mk true true "id1" "FB-1" (Except.ok ()) (Except.error "transport"))
          samplePayload).1.emailsSent.submitterNotified = settledOk (Except.ok () : Except String Unit)
      ∧ (FeedbackService.submitFeedback
          (SubmitEnv.mk true true "id1" "FB-1" (Except.ok ()) (Except.error "transport"))
          samplePayload).1.emailsSent.recipientNotified
        = settledOk (Except.error "transport" : Except String Unit)) :=
  ⟨⟨by decide, rfl⟩,
    submitFeedback_notification_isolation
      (SubmitEnv.mk true true "id1" "FB-1" (Except.ok ()) (Except.error "transport"))
      samplePayload (by decide) rfl rfl⟩

/-- C5: a submission missing any required field (empty submitter or
recipient name or email, empty content, rating outside 1..5, type outside
the five-value enumeration, empty application or feature name) makes
submitFeedback return success false with zero side effects: nothing is
persisted and neither notification is dispatched. -/
theorem submitFeedback_validation_blocks_effects (env : SubmitEnv)
    (p : FeedbackSubmissionPayload)
    (hmiss : p.submitter.name = "" ∨ p.submitter.email = "" ∨ p.recipient.name = ""
      ∨ p.recipient.email = "" ∨ p.feedback.content = "" ∨ p.feedback.rating < 1
      ∨ p.feedback.rating > 5 ∨ p.feedback.type ∉ feedbackTypes
      ∨ p.context.applicationName = "" ∨ p.context.featureName = "") :
    (FeedbackService.submitFeedback env p).1.success = false
    ∧ (FeedbackService.submitFeedback env p).2 = ⟨false, false, false, false⟩ := by
  have hne : FeedbackService.validatePayload p ≠ [] := by
    rcases hmiss with h | h | h | h | h | h | h | h | h | h
    · exact List.ne_nil_of_mem (show "Submitter name is required" ∈
        FeedbackService.validatePayload p by simp [FeedbackService.validatePayload, h])
    · exact List.ne_nil_of_mem (show "Submitter email is required" ∈
        FeedbackService.validatePayload p by simp [FeedbackService.validatePayload, h])
    · exact List.ne_nil_of_mem (show "Recipient name is required" ∈
        FeedbackService.validatePayload p by simp [FeedbackService.validatePayload, h])
    · exact List.ne_nil_of_mem (show "Recipient email is required" ∈
        FeedbackService.validatePayload p by simp [FeedbackService.validatePayload, h])
    · exact List.ne_nil_of_mem (show "Feedback content is required" ∈
        FeedbackService.validatePayload p by simp [FeedbackService.validatePayload, h])
    · exact List.ne_nil_of_mem (show "Rating must be between 1 and 5" ∈
        FeedbackService.validatePayload p by
          simp [FeedbackService.validatePayload]
          omega)
    · exact List.ne_nil_of_mem (show "Rating must be between 1 and 5" ∈
        FeedbackService.validatePayload p by
          simp [FeedbackService.validatePayload]
          omega)
    · exact List.ne_nil_of_mem (show "Invalid feedback type" ∈
        FeedbackService.validatePayload p by simp [FeedbackService.validatePayload, h])
    · exact List.ne_nil_of_mem (show "Application name is required" ∈
        FeedbackService.validatePayload p by simp [FeedbackService.validatePayload, h])
    · exact List.ne_nil_of_mem (show "Feature name is required" ∈
        FeedbackService.validatePayload p by simp [FeedbackService.validatePayload, h])
  simp [FeedbackService.submitFeedback, hne]

/-- Closed instance of the C5 theorem: an otherwise well-formed payload
whose rating 7 lies outside 1..5 is rejected with no side effects. -/
theorem submitFeedback_validation_blocks_effects_witness :
    ((7 : Int) > 5)
    ∧ ((FeedbackService.submitFeedback
          (SubmitEnv.mk true true "id1" "FB-1" (Except.ok ()) (Except.ok ()))
          ⟨⟨"Ana", "ana@example.com"⟩, ⟨"Bob", "bob@example.com"⟩,
           ⟨"Broken", 7, "bug", none⟩, ⟨"App", "Search"⟩⟩).1.success = false
      ∧ (FeedbackService.submitFeedback
          (SubmitEnv.mk true true "id1" "FB-1" (Except.ok ()) (Except.ok ()))
          ⟨⟨"Ana", "ana@example.com"⟩, ⟨"Bob", "bob@example.com"⟩,
           ⟨"Broken", 7, "bug", none⟩, ⟨"App", "Search"⟩⟩).2 = ⟨false, false, false, false⟩) :=
  ⟨by decide,
    submitFeedback_validation_blocks_effects
      (SubmitEnv.mk true true "id1" "FB-1" (Except.ok ()) (Except.ok ()))
      ⟨⟨"Ana", "ana@example.com"⟩, ⟨"Bob", "bob@example.com"⟩,
       ⟨"Broken", 7, "bug", none⟩, ⟨"App", "Search"⟩⟩
      (Or.inr (Or.inr (Or.inr (Or.inr (Or.inr (Or.inr (Or.inl (by decide))))))))⟩

/-- Persisted feedback record, restricted to the fields
updateFeedbackStatus touches: lifecycle status, review timestamp and
reviewer. -/
structure FeedbackRecord where
  status : String
  reviewedAt : Option Nat
  reviewedBy : Option String
deriving Repr, DecidableEq

/-- The five-value status enumeration of the feedback schema. -/
def statusEnum : List String := ["new", "reviewed", "in_progress", "resolved", "dismissed"]

/-- Embedding of the Mongoose save call on a feedback document: the schema
declares status with an enum validator, so save commits the document when
the status is one of the five values and rejects with a validation error
otherwise. -/
def FeedbackModel.save (r : FeedbackRecord) : Except String FeedbackRecord :=
  if r.status ∈ statusEnum then Except.ok r
  else Except.error "Feedback validation failed: status is not a valid enum value"

/-- Embedding of FeedbackService.updateFeedbackStatus over a database
modelled as a map from ids to records: findById, then the in-memory
mutation (status always; reviewedAt and reviewedBy only when the new status
is reviewed and a reviewerId is supplied), then save.  The call returns the
save outcome (ok none when no record matched) paired with the database
state afterwards, which the save updates only when it commits. -/
def FeedbackService.updateFeedbackStatus (db : String → Option FeedbackRecord) (now : Nat)
    (feedbackId status : String) (reviewerId : Option String) :
    Except String (Option FeedbackRecord) × (String → Option FeedbackRecord) :=
  match db feedbackId with
  | none => (Except.ok none, db)
  | some feedback =>
    let r1 : FeedbackRecord := { feedback with status := status }
    let r2 : FeedbackRecord :=
      if status = "reviewed" ∧ reviewerId.isSome then
        { r1 with reviewedAt := some now, reviewedBy := reviewerId }
      else r1
    match FeedbackModel.save r2 with
    | Except.ok saved =>
      (Except.ok (some saved), fun k => if k = feedbackId then some saved else db k)
    | Except.error e => (Except.error e, db)

/-- C6: updateFeedbackStatus rejects a status outside the five enumerated
values with a validation error and leaves the whole database, in particular
the matched record, unchanged; it returns ok none when no record matches
the id; and on an enumerated status it commits a record whose status is the
new one and whose review fields are set to the supplied time and reviewer
exactly when the new status is reviewed and a reviewerId is supplied,
being carried over from the old record otherwise. -/
theorem updateFeedbackStatus_spec (db : String → Option FeedbackRecord) (now : Nat)
    (feedbackId status : String) (reviewerId : Option String) :
    (status ∉ statusEnum → ∀ r, db feedbackId = some r →
      (∃ e, (FeedbackService.updateFeedbackStatus db now feedbackId status reviewerId).1
          = Except.error e)
      ∧ (FeedbackService.updateFeedbackStatus db now feedbackId status reviewerId).2 = db)
    ∧ (db feedbackId = none →
      (FeedbackService.updateFeedbackStatus db now feedbackId status reviewerId).1
          = Except.ok none
      ∧ (FeedbackService.updateFeedbackStatus db now feedbackId status reviewerId).2 = db)
    ∧ (status ∈ statusEnum → ∀ r, db feedbackId = some r →
      ∃ saved, (FeedbackService.updateFeedbackStatus db now feedbackId status reviewerId).1
          = Except.ok (some saved)
        ∧ (FeedbackService.updateFeedbackStatus db now feedbackId status reviewerId).2 feedbackId
          = some saved
        ∧ saved.status = status
        ∧ ((status = "reviewed" ∧ reviewerId.isSome) →
            saved.reviewedAt = some now ∧ saved.reviewedBy = reviewerId)
        ∧ (¬(status = "reviewed" ∧ reviewerId.isSome) →
            saved.reviewedAt = r.reviewedAt ∧ saved.reviewedBy = r.reviewedBy)) := by
  refine ⟨?_, ?_, ?_⟩
  · intro hbad r hr
    by_cases hc : status = "reviewed" ∧ reviewerId.isSome
    · constructor
      · refine ⟨"Feedback validation failed: status is not a valid enum value", ?_⟩
        simp only [FeedbackService.updateFeedbackStatus, hr, if_pos hc]
        simp [FeedbackModel.save, hbad]
      · simp only [FeedbackService.updateFeedbackStatus, hr, if_pos hc]
        simp [FeedbackModel.save, hbad]
    · constructor
      · refine ⟨"Feedback validation failed: status is not a valid enum value", ?_⟩
        simp only [FeedbackService.updateFeedbackStatus, hr, if_neg hc]
        simp [FeedbackModel.save, hbad]
      · simp only [FeedbackService.updateFeedbackStatus, hr, if_neg hc]
        simp [FeedbackModel.save, hbad]
  · intro hnone
    simp [FeedbackService.updateFeedbackStatus, hnone]
  · intro hgood r hr
    by_cases hc : status = "reviewed" ∧ reviewerId.isSome
    · refine ⟨{ r with status := status, reviewedAt := some now, reviewedBy := reviewerId },
        ?_, ?_, rfl, fun _ => ⟨rfl, rfl⟩, fun hn => absurd hc hn⟩
      · simp only [FeedbackService.updateFeedbackStatus, hr, if_pos hc]
        simp [FeedbackModel.save, hgood]
      · simp only [FeedbackService.updateFeedbackStatus, hr, if_pos hc]
        simp [FeedbackModel.save, hgood]
    · refine ⟨{ r with status := status }, ?_, ?_, rfl, fun hy => absurd hy hc,
        fun _ => ⟨rfl, rfl⟩⟩
      · simp only [FeedbackService.updateFeedbackStatus, hr, if_neg hc]
        simp [FeedbackModel.save, hgood]
      · simp only [FeedbackService.updateFeedbackStatus, hr, if_neg hc]
        simp [FeedbackModel.save, hgood]

/-- Sample one-record database used by the C6 witness. -/
def sampleDb : String → Option FeedbackRecord :=
  fun k => if k = "f1" then some ⟨"new", none, none⟩ else none

/-- Closed instance of the C6 theorem: the unrecognized status archived is
rejected and the record stays unchanged; the status reviewed with a
reviewer commits the review fields; a missing id returns ok none. -/
theorem updateFeedbackStatus_spec_witness :
    (("archived" ∉ statusEnum ∧ sampleDb "f1" = some ⟨"new", none, none⟩)
      ∧ ((∃ e, (FeedbackService.updateFeedbackStatus sampleDb 7 "f1" "archived" (some "rev")).1
            = Except.error e)
        ∧ (FeedbackService.updateFeedbackStatus sampleDb 7 "f1" "archived" (some "rev")).2
            = sampleDb))
    ∧ (("reviewed" ∈ statusEnum)
      ∧ (∃ saved, (FeedbackService.updateFeedbackStatus sampleDb 7 "f1" "reviewed" (some "rev")).1
            = Except.ok (some saved)
        ∧ (FeedbackService.updateFeedbackStatus sampleDb 7 "f1" "reviewed" (some "rev")).2 "f1"
            = some saved
        ∧ saved.status = "reviewed"
        ∧ (("reviewed" = "reviewed" ∧ (some "rev").isSome) →
            saved.reviewedAt = some 7 ∧ saved.reviewedBy = some "rev")
        ∧ (¬("reviewed" = "reviewed" ∧ (some "rev").isSome) →
            saved.reviewedAt = (none : Option Nat) ∧ saved.reviewedBy = (none : Option String))))
    ∧ (sampleDb "zz" = none
      ∧ ((FeedbackService.updateFeedbackStatus sampleDb 7 "zz" "reviewed" none).1
            = Except.ok none
        ∧ (FeedbackService.updateFeedbackStatus sampleDb 7 "zz" "reviewed" none).2 = sampleDb)) :=
  ⟨⟨⟨by decide, by decide⟩,
      (updateFeedbackStatus_spec sampleDb 7 "f1" "archived" (some "rev")).1 (by decide)
        ⟨"new", none, none⟩ (by decide)⟩,
    ⟨by decide,
      (updateFeedbackStatus_spec sampleDb 7 "f1" "reviewed" (some "rev")).2.2 (by decide)
        ⟨"new", none, none⟩ (by decide)⟩,
    ⟨by decide,
      (updateFeedbackStatus_spec sampleDb 7 "zz" "reviewed" none).2.1 (by decide)⟩⟩

/-- C7: the estimated response time returned for a feedback type and
priority is the fixed labeled bucket chosen by the source's precedence:
critical priority first (regardless of type), then high priority, then bug
type, then negative type, then the default bucket; in particular positive
with no priority gets the default bucket, and a successful submission
returns exactly this value. -/
theorem getEstimatedResponseTime_precedence (t : String) (p : Option String) :
    FeedbackService.getEstimatedResponseTime t (some "critical") = "2-4 hours"
    ∧ (p ≠ some "critical" → p = some "high" →
        FeedbackService.getEstimatedResponseTime t p = "24-48 hours")
    ∧ (p ≠ some "critical" → p ≠ some "high" → t = "bug" →
        FeedbackService.getEstimatedResponseTime t p = "2-3 business days")
    ∧ (p ≠ some "critical" → p ≠ some "high" → t ≠ "bug" → t = "negative" →
        FeedbackService.getEstimatedResponseTime t p = "1-2 business days")
    ∧ (p ≠ some "critical" → p ≠ some "high" → t ≠ "bug" → t ≠ "negative" →
        FeedbackService.getEstimatedResponseTime t p = "3-5 business days")
    ∧ FeedbackService.getEstimatedResponseTime "positive" none = "3-5 business days"
    ∧ (∀ (env : SubmitEnv) (q : FeedbackSubmissionPayload),
        FeedbackService.validatePayload q = [] → env.saveOk = true → env.updateSaveOk = true →
        (FeedbackService.submitFeedback env q).1.estimatedResponseTime
          = some (FeedbackService.getEstimatedResponseTime q.feedback.type q.feedback.priority)) := by
  refine ⟨?_, ?_, ?_, ?_, ?_, by decide, ?_⟩
  · simp [FeedbackService.getEstimatedResponseTime]
  · intro h1 h2
    subst h2
    simp [FeedbackService.getEstimatedResponseTime]
  · intro h1 h2 h3
    subst h3
    simp [FeedbackService.getEstimatedResponseTime, h1, h2]
  · intro h1 h2 h3 h4
    subst h4
    simp [FeedbackService.getEstimatedResponseTime, h1, h2]
  · intro h1 h2 h3 h4
    simp [FeedbackService.getEstimatedResponseTime, h1, h2, h3, h4]
  · intro env q hvalid hsave hupdate
    simp [FeedbackService.submitFeedback, hvalid, hsave, hupdate]

/-- Closed instance of the C7 theorem: positive with no priority gets the
default bucket; critical priority overrides the bug type; a successful
sample submission carries the default bucket. -/
theorem getEstimatedResponseTime_precedence_witness :
    ((none : Option String) ≠ some "critical"
      ∧ FeedbackService.getEstimatedResponseTime "positive" none = "3-5 business days")
    ∧ FeedbackService.getEstimatedResponseTime "bug" (some "critical") = "2-4 hours"
    ∧ (FeedbackService.submitFeedback
        (SubmitEnv.mk true true "id1" "FB-1" (Except.ok ()) (Except.ok ()))
        samplePayload).1.estimatedResponseTime
      = some (FeedbackService.getEstimatedResponseTime "positive" none) :=
  ⟨⟨by decide,
      (getEstimatedResponseTime_precedence "positive" none).2.2.2.2.1 (by decide) (by decide)
        (by decide) (by decide)⟩,
    (getEstimatedResponseTime_precedence "bug" (some "critical")).1,
    (getEstimatedResponseTime_precedence "positive" none).2.2.2.2.2.2
      (SubmitEnv.mk true true "id1" "FB-1" (Except.ok ()) (Except.ok ()))
      samplePayload (by decide) rfl rfl⟩

/-- Compiled template representation: the parts the claims need, namely
literal text, a plain variable reference, and a reference through the
registered uppercase helper. -/
inductive TemplatePart where
  | text (s : String)
  | var (name : String)
  | uppercase (name : String)

/-- Embedding of the registered uppercase Handlebars helper: text ?
text.toUpperCase() : the empty string (a missing variable or an empty
string is falsy). -/
def uppercaseHelper (text : Option String) : String :=
  match text with
  | some t => if t = "" then "" else strToUpper t
  | none => ""

/-- Rendering of one template part under a variable assignment; a missing
plain variable renders as the empty string. -/
def renderPart (vars : String → Option String) : TemplatePart → String
  | TemplatePart.text s => s
  | TemplatePart.var n => (vars n).getD ""
  | TemplatePart.uppercase n => uppercaseHelper (vars n)

/-- Rendering of a compiled template: the concatenation of its rendered
parts. -/
def renderParts (vars : String → Option String) : List TemplatePart → String
  | [] => ""
  | part :: rest => renderPart vars part ++ renderParts vars rest

/-- State of a TemplateService instance: the compiled-template cache keyed
by resolved path and the cacheEnabled flag fixed at construction. -/
structure TemplateServiceState where
  templateCache : String → Option (List TemplatePart)
  cacheEnabled : Bool

/-- Embedding of TemplateService.render.  Path resolution, the filesystem
and the Handlebars compiler are external collaborators passed as functions
(the compiler is a pure function, Handlebars compilation being
deterministic).  The cache is consulted only when enabled; a cache hit
renders the cached template; otherwise the file is loaded (a missing file
throws the wrapped template-not-found error), compiled, cached when
caching is enabled, and rendered.  The call returns the outcome paired
with the state afterwards. -/
def TemplateService.render (resolve : String → String) (fs : String → Option String)
    (compile : String → List TemplatePart) (st : TemplateServiceState)
    (templatePath : String) (vars : String → Option String) :
    Except String String × TemplateServiceState :=
  let absolutePath := resolve templatePath
  match (if st.cacheEnabled then st.templateCache absolutePath else none) with
  | some t => (Except.ok (renderParts vars t), st)
  | none =>
    match fs absolutePath with
    | none =>
      (Except.error ("Failed to render template " ++ templatePath
        ++ ": Template file not found: " ++ absolutePath), st)
    | some src =>
      let t := compile src
      let st1 := if st.cacheEnabled then
          { st with templateCache := fun k =>
              if k = absolutePath then some t else st.templateCache k }
        else st
      (Except.ok (renderParts vars t), st1)

/-- C9: template rendering is deterministic and idempotent.  Starting from
an empty cache, the first render of a path agrees with the render of a
cache-disabled service, re-rendering the same path with the same variables
after the first render (a cache hit when caching is enabled, a recompile
otherwise) returns the identical output, and rendering a template holding
an uppercase-helper reference to firstName with the assignment
firstName := Ana places ANA at the corresponding position of the output. -/
theorem render_deterministic_idempotent (resolve : String → String)
    (fs : String → Option String) (compile : String → List TemplatePart)
    (templatePath : String) (vars : String → Option String) (enabled : Bool)
    (pre post : String) :
    (TemplateService.render resolve fs compile ⟨fun _ => none, enabled⟩ templatePath vars).1
      = (TemplateService.render resolve fs compile ⟨fun _ => none, false⟩ templatePath vars).1
    ∧ (TemplateService.render resolve fs compile
        (TemplateService.render resolve fs compile
          ⟨fun _ => none, enabled⟩ templatePath vars).2 templatePath vars).1
      = (TemplateService.render resolve fs compile
          ⟨fun _ => none, enabled⟩ templatePath vars).1
    ∧ renderParts (fun n => if n = "firstName" then some "Ana" else none)
        [TemplatePart.text pre, TemplatePart.uppercase "firstName", TemplatePart.text post]
      = pre ++ "ANA" ++ post := by
  refine ⟨?_, ?_, ?_⟩
  · cases henabled : enabled <;>
      cases hfs : fs (resolve templatePath) <;>
      simp [TemplateService.render, hfs]
  · cases henabled : enabled <;>
      cases hfs : fs (resolve templatePath) <;>
      simp [TemplateService.render, hfs]
  · have h1 : (fun n => if n = "firstName" then some "Ana" else none) "firstName"
        = some "Ana" := by decide
    simp only [renderParts, renderPart, h1, uppercaseHelper, if_true]
    rw [show (if ("Ana" : String) = "" then "" else strToUpper "Ana") = "ANA" by decide]
    rw [String.append_empty, String.append_assoc]
